import Mathlib

/-!
Verification of the VAqua JavaWindowAccess interface.

The repository material is the header src/libvaqua/JavaWindowAccess.h, which
declares two native functions:

  jobject getJavaWindow(JNIEnv *env, NSWindow *w);
  jobject getJavaPlatformWindow(JNIEnv *env, NSWindow *w);

together with the imports Cocoa/Cocoa.h and jni.h and the descriptive comment
on line 9. We embed the header both semantically (the window-mapping behaviour
the two accessors are specified to have; the implementation is not part of the
supplied sources, so that part is modelled from the specification text) and
syntactically (the declaration surface itself: names, parameter types, return
types, imports, comment), and prove the claimed properties of each.
-/

namespace VAqua

/-- Value space of a JNI jobject as it appears at this interface: either the
null reference or a handle to a managed-runtime heap object. -/
inductive JObjectRef where
  | null : JObjectRef
  | ref : Nat → JObjectRef
deriving DecidableEq, Repr

/-- Modelled from the spec: the bridge-table implementation behind
JavaWindowAccess.h is not among the supplied sources (only the declarations
are). Per the specification, a registration table keyed by native window
identity associates each registered native window with the managed-runtime
handle of its Java window and the managed-runtime handle of its Java platform
window (CPlatformWindow) peer. One table entry. -/
structure WindowEntry where
  native : Nat
  javaWindow : Nat
  platformWindow : Nat
deriving DecidableEq, Repr

/-- Modelled from the spec: the registration table keyed by native window
identity, holding the established mappings. -/
structure BridgeState where
  entries : List WindowEntry
deriving DecidableEq, Repr

/-- Modelled from the spec: look up the established mapping, if any, for a
native window identity. -/
def findEntry (s : BridgeState) (w : Nat) : Option WindowEntry :=
  s.entries.find? (fun e => e.native == w)

/-- Modelled from the spec: getJavaWindow returns a managed-runtime object
handle representing the corresponding managed window, or a null result if no
mapping exists. -/
def getJavaWindow (s : BridgeState) (w : Nat) : JObjectRef :=
  match findEntry s w with
  | some e => JObjectRef.ref e.javaWindow
  | none => JObjectRef.null

/-- Modelled from the spec: getJavaPlatformWindow has the same contract but
returns the managed-runtime object handle representing the platform window
(CPlatformWindow) peer object rather than the window itself. -/
def getJavaPlatformWindow (s : BridgeState) (w : Nat) : JObjectRef :=
  match findEntry s w with
  | some e => JObjectRef.ref e.platformWindow
  | none => JObjectRef.null

/-- Modelled from the spec: per the glossary, the platform window is a
secondary peer object distinct from the primary managed window object, so in a
well-formed table every entry carries two distinct peer handles. -/
def WellFormed (s : BridgeState) : Prop :=
  ∀ e ∈ s.entries, e.javaWindow ≠ e.platformWindow

/-- Concrete bridge state used by the witnesses: native window 1 is mapped to
Java window handle 10 and platform window handle 20; no other window is
mapped. -/
def demoState : BridgeState :=
  ⟨[⟨1, 10, 20⟩]⟩

/-- Claim C1: for every established mapping, getJavaWindow returns the handle
of the corresponding managed window, and for every native window with no
mapping it returns the null result. -/
theorem getJavaWindow_mapping (s : BridgeState) (w : Nat) :
    (∀ e, findEntry s w = some e →
      getJavaWindow s w = JObjectRef.ref e.javaWindow) ∧
    (findEntry s w = none → getJavaWindow s w = JObjectRef.null) := by
  constructor
  · intro e he
    simp [getJavaWindow, he]
  · intro h
    simp [getJavaWindow, h]

/-- Witness for C1: on the concrete demo state, getJavaWindow returns handle
10 for the mapped native window 1 and null for the unmapped native window 2. -/
theorem getJavaWindow_mapping_witness :
    getJavaWindow demoState 1 = JObjectRef.ref 10 ∧
    getJavaWindow demoState 2 = JObjectRef.null := by
  constructor
  · exact (getJavaWindow_mapping demoState 1).1 ⟨1, 10, 20⟩ (by decide)
  · exact (getJavaWindow_mapping demoState 2).2 (by decide)

/-- Claim C2: getJavaPlatformWindow satisfies the same contract as
getJavaWindow, except that for a mapped native window it returns the handle of
the platform window peer object rather than that of the window itself. -/
theorem getJavaPlatformWindow_mapping (s : BridgeState) (w : Nat) :
    (∀ e, findEntry s w = some e →
      getJavaPlatformWindow s w = JObjectRef.ref e.platformWindow) ∧
    (findEntry s w = none → getJavaPlatformWindow s w = JObjectRef.null) := by
  constructor
  · intro e he
    simp [getJavaPlatformWindow, he]
  · intro h
    simp [getJavaPlatformWindow, h]

/-- Witness for C2: on the concrete demo state, getJavaPlatformWindow returns
the platform-window handle 20 for the mapped native window 1 and null for the
unmapped native window 2. -/
theorem getJavaPlatformWindow_mapping_witness :
    getJavaPlatformWindow demoState 1 = JObjectRef.ref 20 ∧
    getJavaPlatformWindow demoState 2 = JObjectRef.null := by
  constructor
  · exact (getJavaPlatformWindow_mapping demoState 1).1 ⟨1, 10, 20⟩ (by decide)
  · exact (getJavaPlatformWindow_mapping demoState 2).2 (by decide)

/-- Claim C3: for every native window with no established mapping, both
accessors return the null result (they are total functions, so in particular
they do not crash). -/
theorem unmapped_window_returns_null (s : BridgeState) (w : Nat)
    (h : findEntry s w = none) :
    getJavaWindow s w = JObjectRef.null ∧
    getJavaPlatformWindow s w = JObjectRef.null := by
  constructor
  · simp [getJavaWindow, h]
  · simp [getJavaPlatformWindow, h]

/-- Witness for C3: native window 99 has no mapping in the demo state, and
both accessors return null on it. -/
theorem unmapped_window_returns_null_witness :
    getJavaWindow demoState 99 = JObjectRef.null ∧
    getJavaPlatformWindow demoState 99 = JObjectRef.null :=
  unmapped_window_returns_null demoState 99 (by decide)

/-- Claim C4: for every native window with an established mapping in a
well-formed table, getJavaWindow and getJavaPlatformWindow return the handles
stored for the window and the platform window respectively, and the two
returned handles are distinct. -/
theorem mapped_window_distinct_peers (s : BridgeState) (w : Nat)
    (e : WindowEntry) (hwf : WellFormed s) (he : findEntry s w = some e) :
    getJavaWindow s w = JObjectRef.ref e.javaWindow ∧
    getJavaPlatformWindow s w = JObjectRef.ref e.platformWindow ∧
    getJavaWindow s w ≠ getJavaPlatformWindow s w := by
  have hmem : e ∈ s.entries := List.mem_of_find?_eq_some he
  have hne : e.javaWindow ≠ e.platformWindow := hwf e hmem
  refine ⟨by simp [getJavaWindow, he], by simp [getJavaPlatformWindow, he], ?_⟩
  simp [getJavaWindow, getJavaPlatformWindow, he]
  exact hne

/-- Witness for C4: in the demo state, whose single entry has distinct peer
handles, the two accessors return the distinct handles 10 and 20 for native
window 1. -/
theorem mapped_window_distinct_peers_witness :
    getJavaWindow demoState 1 = JObjectRef.ref 10 ∧
    getJavaPlatformWindow demoState 1 = JObjectRef.ref 20 ∧
    getJavaWindow demoState 1 ≠ getJavaPlatformWindow demoState 1 :=
  mapped_window_distinct_peers demoState 1 ⟨1, 10, 20⟩
    (by intro e he; simp [demoState] at he; subst he; decide) (by decide)

/-- C type appearing in the declarations of JavaWindowAccess.h: the JNI
jobject handle type, the pointer to the JNI execution context JNIEnv, or the
pointer to the Cocoa NSWindow class. -/
inductive CType where
  | jobject : CType
  | jniEnvPtr : CType
  | nsWindowPtr : CType
deriving DecidableEq, Repr

/-- One formal parameter of a declared function: its C type and its name. -/
structure Param where
  type : CType
  name : String
deriving DecidableEq, Repr

/-- One function declaration of the header: return type, function name,
parameter list, whether the file gives it a body, and whether it carries the
JNI export and calling-convention markers (JNIEXPORT and JNICALL). -/
structure FunDecl where
  ret : CType
  name : String
  params : List Param
  hasBody : Bool
  jniExportMarked : Bool
deriving DecidableEq, Repr

/-- Embedding of line 14 of JavaWindowAccess.h:
jobject getJavaWindow(JNIEnv *env, NSWindow *w); -/
def getJavaWindowDecl : FunDecl :=
  { ret := CType.jobject
    name := "getJavaWindow"
    params := [⟨CType.jniEnvPtr, "env"⟩, ⟨CType.nsWindowPtr, "w"⟩]
    hasBody := false
    jniExportMarked := false }

/-- Embedding of line 15 of JavaWindowAccess.h:
jobject getJavaPlatformWindow(JNIEnv *env, NSWindow *w); -/
def getJavaPlatformWindowDecl : FunDecl :=
  { ret := CType.jobject
    name := "getJavaPlatformWindow"
    params := [⟨CType.jniEnvPtr, "env"⟩, ⟨CType.nsWindowPtr, "w"⟩]
    hasBody := false
    jniExportMarked := false }

/-- The header file as a whole: its imports, its descriptive comment, the
function declarations it contains, and the names of any types it defines. -/
structure HeaderFile where
  imports : List String
  comment : String
  decls : List FunDecl
  typeDefs : List String
deriving DecidableEq, Repr

/-- Embedding of src/libvaqua/JavaWindowAccess.h: two imports (lines 11 and
12), the descriptive comment of line 9, the two declarations of lines 14 and
15, and no type definitions. -/
def javaWindowAccessHeader : HeaderFile :=
  { imports := ["Cocoa/Cocoa.h", "jni.h"]
    comment := "Support for mapping a native window to a Java window or a Java platform window (CPlatformWindow)."
    decls := [getJavaWindowDecl, getJavaPlatformWindowDecl]
    typeDefs := [] }

/-- Whether a C type can be passed to a native function by the managed runtime
when it invokes a JNI native method: JNI marshals only its own handle and
primitive types (besides the JNIEnv context pointer); a Cocoa NSWindow pointer
is not among them. -/
def CType.jniPassable : CType → Bool
  | CType.jobject => true
  | CType.jniEnvPtr => true
  | CType.nsWindowPtr => false

/-- Whether a declared function could be an entry point the managed runtime
invokes into native code: every parameter type must be one JNI can pass, and
the function must either bear the mangled Java_ name with the JNIEXPORT and
JNICALL markers or have the RegisterNatives shape, whose second parameter is
the jobject receiver. -/
def managedRuntimeInvocable (d : FunDecl) : Bool :=
  d.params.all (fun p => CType.jniPassable p.type) &&
    ((d.jniExportMarked && d.name.take 5 == "Java_") ||
      (d.params.map Param.type).get? 1 == some CType.jobject)

/-- Claim C5: the interface consists of exactly the two declared entry points;
each takes exactly two parameters, the JNI execution-context pointer first and
the native window identity second, and returns a jobject handle; the two
declarations have identical parameter and return types; and the jobject value
space can represent the absence of a mapping via the null reference. -/
theorem interface_shape :
    javaWindowAccessHeader.decls = [getJavaWindowDecl, getJavaPlatformWindowDecl] ∧
    javaWindowAccessHeader.decls.length = 2 ∧
    (javaWindowAccessHeader.decls.all (fun d =>
      d.params.length == 2 &&
      d.params.map Param.type == [CType.jniEnvPtr, CType.nsWindowPtr] &&
      d.ret == CType.jobject)) = true ∧
    getJavaWindowDecl.params.map Param.type
      = getJavaPlatformWindowDecl.params.map Param.type ∧
    getJavaWindowDecl.ret = getJavaPlatformWindowDecl.ret ∧
    ∃ noMapping : JObjectRef, ∀ i : Nat, noMapping ≠ JObjectRef.ref i := by
  refine ⟨rfl, rfl, by decide, rfl, rfl, JObjectRef.null, ?_⟩
  intro i h
  exact JObjectRef.noConfusion h

/-- Refutation for C6: neither declared function can be an entry point that
the managed runtime invokes into native code. Each fails the requirements of
such an entry point: the name is not Java_-mangled, the JNIEXPORT and JNICALL
markers are absent, and the second parameter has the native Cocoa type
NSWindow pointer, which JNI cannot pass from the managed side. -/
theorem managed_invocation_refuted :
    managedRuntimeInvocable getJavaWindowDecl = false ∧
    managedRuntimeInvocable getJavaPlatformWindowDecl = false := by
  decide

/-- Claim C6 as amended: both declared functions are plain native functions
for native code to call; each takes the JNIEnv pointer first, through which it
can call into the managed runtime, but neither is invocable by the managed
runtime, since each carries a parameter of a type JNI cannot pass, no export
markers, and an unmangled name. -/
theorem native_side_accessors :
    (javaWindowAccessHeader.decls.all (fun d =>
      !managedRuntimeInvocable d &&
      !d.jniExportMarked &&
      !(d.name.take 5 == "Java_") &&
      d.params.any (fun p => !CType.jniPassable p.type) &&
      (d.params.map Param.type).get? 0 == some CType.jniEnvPtr)) = true := by
  decide

/-- Claim C7: the artifact is a single header declaring exactly two native
functions, none with a body (hence no control flow), and defines no types
(hence no data model and no state). -/
theorem header_is_declaration_only :
    javaWindowAccessHeader.decls = [getJavaWindowDecl, getJavaPlatformWindowDecl] ∧
    javaWindowAccessHeader.decls.length = 2 ∧
    (javaWindowAccessHeader.decls.all (fun d => !d.hasBody)) = true ∧
    javaWindowAccessHeader.typeDefs = [] := by
  refine ⟨rfl, rfl, by decide, rfl⟩

/-- Claim C8: the header imports Cocoa, and in both declarations the native
window identity parameter has the concrete Cocoa type NSWindow pointer, fixing
the host windowing toolkit to macOS Cocoa. -/
theorem nswindow_is_cocoa :
    javaWindowAccessHeader.imports.contains "Cocoa/Cocoa.h" = true ∧
    (javaWindowAccessHeader.decls.all (fun d =>
      (d.params.map Param.type).get? 1 == some CType.nsWindowPtr)) = true := by
  decide

/-- Whether the first list of characters occurs at the start of the second. -/
def charsStartWith : List Char → List Char → Bool
  | [], _ => true
  | _ :: _, [] => false
  | a :: as, b :: bs => a == b && charsStartWith as bs

/-- Whether the first list of characters occurs contiguously anywhere inside
the second. -/
def charsContain (pat : List Char) : List Char → Bool
  | [] => charsStartWith pat []
  | b :: bs => charsStartWith pat (b :: bs) || charsContain pat bs

/-- Name of the platform window peer class, taken from the parenthetical in
the comment on line 9 of the header. -/
def platformWindowPeerClass : String := "CPlatformWindow"

/-- Claim C9: the header comment identifies the Java platform window as the
CPlatformWindow class, so the peer object whose handle getJavaPlatformWindow
returns is specifically the CPlatformWindow object. -/
theorem platform_window_peer_is_cplatformwindow :
    charsContain
      (String.toList ("Java platform window (" ++ platformWindowPeerClass ++ ")"))
      (String.toList javaWindowAccessHeader.comment) = true ∧
    getJavaPlatformWindowDecl.name = "getJavaPlatformWindow" := by
  decide

/-- Claim C10: both declarations expose only the jobject return value — the
parameters are exactly the JNIEnv pointer and the NSWindow pointer, with no
error code or status out-parameter — and every value of the jobject value
space is either the null sentinel or an object handle, so every call yields a
handle or null. -/
theorem null_sentinel_only_failure_channel :
    (javaWindowAccessHeader.decls.all (fun d =>
      d.ret == CType.jobject &&
      d.params.map Param.type == [CType.jniEnvPtr, CType.nsWindowPtr])) = true ∧
    (∀ (s : BridgeState) (w : Nat), getJavaWindow s w = JObjectRef.null ∨
      ∃ i, getJavaWindow s w = JObjectRef.ref i) ∧
    (∀ (s : BridgeState) (w : Nat), getJavaPlatformWindow s w = JObjectRef.null ∨
      ∃ i, getJavaPlatformWindow s w = JObjectRef.ref i) := by
  refine ⟨by decide, ?_, ?_⟩
  · intro s w
    cases h : getJavaWindow s w with
    | null => exact Or.inl rfl
    | ref i => exact Or.inr ⟨i, rfl⟩
  · intro s w
    cases h : getJavaPlatformWindow s w with
    | null => exact Or.inl rfl
    | ref i => exact Or.inr ⟨i, rfl⟩

end VAqua
